/-
Verification of the prompt-quality scoring and coaching engine of claude-x.

The Python modules `scoring.py`, `prompt_coach.py` and the relevant parts of
`analytics.py` are shallowly embedded below.  Python floats are modelled as
rationals (ℚ); `round(x, n)` is modelled by exact round-half-to-even at the
given number of decimals.  The regular-expression keyword checks of the
scoring heuristics are pure boolean signals of the prompt text; they are
abstracted as boolean-valued signal functions supplied as parameters, and
every theorem below is universally quantified over them, so each theorem
holds for the actual regex predicates in particular.
-/
import Mathlib

namespace ClaudeX

/-- Python `x or d` for integers: `0` is falsy, so `x or d` is `d` when
`x = 0` and `x` otherwise. -/
def pyOrInt (x d : ℤ) : ℤ := if x = 0 then d else x

/-- Python `x or d` for floats, modelled on ℚ: `0.0` is falsy. -/
def pyOrRat (x d : ℚ) : ℚ := if x = 0 then d else x

/-- Python `round` on a rational: round half to even (banker's rounding),
as CPython's `round` does on exact halves. -/
def pyRoundInt (x : ℚ) : ℤ :=
  if x - ⌊x⌋ < 1/2 then ⌊x⌋
  else if 1/2 < x - ⌊x⌋ then ⌊x⌋ + 1
  else if 2 ∣ ⌊x⌋ then ⌊x⌋ else ⌊x⌋ + 1

/-- Python `round(x, 2)`: round half to even at two decimal places. -/
def round2 (x : ℚ) : ℚ := (pyRoundInt (x * 100) : ℚ) / 100

/-- Python `int(x)` on a float: truncation toward zero. -/
def pyTrunc (x : ℚ) : ℤ := if x < 0 then -⌊-x⌋ else ⌊x⌋

/-- Python truthiness of an optional string: `None` and `""` are falsy. -/
def pyTruthyStr : Option String → Bool
  | none => false
  | some s => !s.isEmpty

/-! ## scoring.py — metric functions

Each `re.search`-based check of `calculate_structure_score` is a boolean
signal of the prompt text; the four regex-group checks are abstracted as
the fields of `StructureSignalFns`. -/

/-- The four regex-group checks of `calculate_structure_score`
(goal statement, specific target, constraints, examples/references),
abstracted as boolean signal functions of the prompt text. -/
structure StructureSignalFns where
  goal : String → Bool
  target : String → Bool
  constraints : String → Bool
  examples : String → Bool

/-- The five checks of `calculate_context_score` (file/path mention,
technology keyword, code block, error/log information, background
explanation), abstracted as boolean signal functions of the prompt text. -/
structure ContextSignalFns where
  file_path : String → Bool
  tech : String → Bool
  code_block : String → Bool
  error_info : String → Bool
  background : String → Bool

/-- `calculate_structure_score(prompt)`: `0.0` for a falsy prompt, otherwise
`+2` per matched signal group, `+2`/`+1` for the length band
`20 ≤ len ≤ 500` / `10 ≤ len ≤ 1000`, capped at `10.0`. -/
def calculate_structure_score (fns : StructureSignalFns)
    (prompt : Option String) : ℚ :=
  if !pyTruthyStr prompt then 0
  else
    let p := prompt.getD ("")
    let score : ℚ :=
      (if fns.goal p then 2 else 0) +
      (if fns.target p then 2 else 0) +
      (if fns.constraints p then 2 else 0) +
      (if fns.examples p then 2 else 0) +
      (if 20 ≤ p.length ∧ p.length ≤ 500 then 2
       else if 10 ≤ p.length ∧ p.length ≤ 1000 then 1 else 0)
    min score 10

/-- `calculate_context_score(prompt)`: `0.0` for a falsy prompt, otherwise
`+2` per matched signal, capped at `10.0`. -/
def calculate_context_score (fns : ContextSignalFns)
    (prompt : Option String) : ℚ :=
  if !pyTruthyStr prompt then 0
  else
    let p := prompt.getD ("")
    let score : ℚ :=
      (if fns.file_path p then 2 else 0) +
      (if fns.tech p then 2 else 0) +
      (if fns.code_block p then 2 else 0) +
      (if fns.error_info p then 2 else 0) +
      (if fns.background p then 2 else 0)
    min score 10

/-- `calculate_efficiency_score(message_count)`: step function of the
message count. -/
def calculate_efficiency_score (message_count : ℤ) : ℚ :=
  if message_count ≤ 5 then 10
  else if message_count ≤ 10 then 9
  else if message_count ≤ 20 then 8
  else if message_count ≤ 35 then 6
  else if message_count ≤ 50 then 5
  else if message_count ≤ 75 then 4
  else if message_count ≤ 100 then 3
  else 2

/-- `calculate_diversity_score(language_diversity)`: step function of the
number of distinct languages. -/
def calculate_diversity_score (language_diversity : ℤ) : ℚ :=
  if language_diversity ≥ 4 then 10
  else if language_diversity ≥ 3 then 8
  else if language_diversity ≥ 2 then 6
  else if language_diversity ≥ 1 then 4
  else 0

/-- `calculate_productivity_score(total_lines, max_lines)`: `0.0` when the
normalization ceiling is not positive, otherwise
`min((total_lines or 0) / max_lines * 10, 10.0)`. -/
def calculate_productivity_score (total_lines : ℤ) (max_lines : ℤ) : ℚ :=
  if max_lines ≤ 0 then 0
  else min ((pyOrInt total_lines 0 : ℚ) / (max_lines : ℚ) * 10) 10

/-- The dict returned by `calculate_composite_score_v2`. -/
structure ScoreBreakdown where
  structure_score : ℚ
  context_score : ℚ
  productivity_score : ℚ
  efficiency_score : ℚ
  diversity_score : ℚ
  composite_score : ℚ
  deriving DecidableEq

/-- `calculate_composite_score_v2`: the five sub-scores and their weighted
sum (weights 0.25/0.25/0.20/0.15/0.15), each rounded to 2 decimals.
`code_count` is accepted but unused, as in the source. -/
def calculate_composite_score_v2 (sfns : StructureSignalFns)
    (cfns : ContextSignalFns) (prompt : Option String)
    (code_count : ℤ) (total_lines : ℤ) (message_count : ℤ)
    (language_diversity : ℤ) (max_lines : ℤ) : ScoreBreakdown :=
  let _ := code_count
  let structureScore := calculate_structure_score sfns prompt
  let contextScore := calculate_context_score cfns prompt
  let productivity := calculate_productivity_score total_lines max_lines
  let efficiency := calculate_efficiency_score message_count
  let diversity := calculate_diversity_score language_diversity
  let composite :=
    structureScore * 0.25 +
    contextScore * 0.25 +
    productivity * 0.20 +
    efficiency * 0.15 +
    diversity * 0.15
  { structure_score := round2 structureScore
    context_score := round2 contextScore
    productivity_score := round2 productivity
    efficiency_score := round2 efficiency
    diversity_score := round2 diversity
    composite_score := round2 composite }

/-- `calculate_legacy_efficiency(code_count, user_prompt_count)`:
`0.0` when there are no user prompts, otherwise the rounded ratio. -/
def calculate_legacy_efficiency (code_count : ℤ) (user_prompt_count : ℤ) : ℚ :=
  if user_prompt_count = 0 then 0
  else round2 ((code_count : ℚ) / (user_prompt_count : ℚ))

/-- `calculate_legacy_clarity(message_count)`: `0.0` when there are no
messages, otherwise `round(100.0 / message_count, 2)`. -/
def calculate_legacy_clarity (message_count : ℤ) : ℚ :=
  if message_count = 0 then 0
  else round2 (100 / (message_count : ℚ))

/-- `calculate_legacy_quality(sensitive_count, language_diversity)`. -/
def calculate_legacy_quality (sensitive_count : ℤ) (language_diversity : ℤ) : ℤ :=
  if sensitive_count = 0 ∧ language_diversity ≥ 3 then 10
  else if sensitive_count = 0 ∧ language_diversity ≥ 2 then 8
  else if sensitive_count = 0 then 6
  else if language_diversity ≥ 3 then 5
  else 3

/-- `calculate_legacy_composite`: weighted sum (efficiency 40%, clarity 30%,
batch-normalized productivity 20%, quality 10%), rounded to 2 decimals. -/
def calculate_legacy_composite (efficiency_score : ℚ) (clarity_score : ℚ)
    (productivity_score : ℚ) (quality_score : ℤ) (max_lines : ℤ) : ℚ :=
  let normalized_productivity :=
    pyOrRat productivity_score 0 / (max max_lines 1 : ℤ) * 10
  round2
    (pyOrRat efficiency_score 0 * 0.4 +
     pyOrRat clarity_score 0 * 0.3 +
     normalized_productivity * 0.2 +
     (quality_score : ℚ) * 0.1)

/-! ## prompt_coach.py -/

/-- Modelled from the spec: the Translator collaborator
`t(key, language) -> str` (module `i18n` is not among the sources); a pure
lookup keyed by message key and language tag, modelled as an injective
pairing of the two.  Template variables are display-only and dropped. -/
def t (key : String) (lang : String) : String := key ++ "|" ++ lang

/-- The regex text predicates of `prompt_coach.py`
(`_has_file_path`, `_has_error_keywords`, `_has_error_message`,
`_is_conversational`), abstracted as boolean signal functions of the text. -/
structure TextSignalFns where
  has_file_path : String → Bool
  has_error_keywords : String → Bool
  has_error_message : String → Bool
  is_conversational : String → Bool

/-- A problem dict built by `PromptCoach._problem`. -/
structure Problem where
  issue : String
  severity : String
  description : String
  impact : String
  how_to_fix : String
  deriving DecidableEq

/-- `PromptCoach._problem(key, severity, lang)`. -/
def _problem (key : String) (severity : String) (lang : String) : Problem :=
  { issue := key
    severity := severity
    description := t ("problems." ++ key) lang
    impact := t ("problems." ++ key ++ ".impact") lang
    how_to_fix := t ("problems." ++ key ++ ".fix") lang }

/-- `PromptCoach.identify_problems(prompt, scores, lang)`: the five
independent checks, appending in source order. -/
def identify_problems (tfns : TextSignalFns) (prompt : String)
    (structureScore : ℚ) (contextScore : ℚ) (lang : String) : List Problem :=
  let problems : List Problem := []
  let problems := if structureScore < 2 then
    problems ++ [_problem ("no_target") ("high") lang] else problems
  let problems := if contextScore < 2 then
    problems ++ [_problem ("no_context") ("high") lang] else problems
  let problems := if tfns.is_conversational prompt then
    problems ++ [_problem ("conversational") ("medium") lang] else problems
  let problems := if !tfns.has_file_path prompt then
    problems ++ [_problem ("no_file") ("medium") lang] else problems
  let problems := if tfns.has_error_keywords prompt &&
      !tfns.has_error_message prompt then
    problems ++ [_problem ("no_error") ("medium") lang] else problems
  problems

/-- A suggestion dict.  The Python `example` key is named `exampleText`
(`example` is a Lean keyword); `why_successful` is present only on
`user_pattern` suggestions, hence optional. -/
structure Suggestion where
  type : String
  title : String
  template : String
  exampleText : String
  why_successful : Option String
  confidence : ℚ
  deriving DecidableEq

/-- The dict returned by the Pattern Analyzer collaborator
`analyze_prompt_for_pattern(text)` (module `patterns` is not among the
sources): optional `template` and `pattern_description`, optional
`quality_score` read with default `0.7`. -/
structure PatternAnalysis where
  template : Option String
  pattern_description : Option String
  quality_score : Option ℚ

/-- A best-prompt record as consumed by the coach (`first_prompt` key). -/
structure BestPrompt where
  first_prompt : String

/-- The body of the first loop of `generate_suggestions`: the
`user_pattern` suggestion built for one historical best prompt. -/
def mkUserPatternSuggestion (apfp : String → PatternAnalysis)
    (prompt_text : String) (tmpl : String) (lang : String) : Suggestion :=
  { type := "user_pattern"
    title := t ("suggestions.user_pattern") lang
    template := tmpl
    exampleText := prompt_text
    why_successful := some ("")
    confidence := (apfp prompt_text).quality_score.getD 0.7 }

/-- The first loop of `generate_suggestions` (`for best in user_best[:2]`):
append a `user_pattern` suggestion when the analyzer derives a template,
skip the record otherwise. -/
def userPatternLoop (apfp : String → PatternAnalysis) (lang : String) :
    List BestPrompt → List Suggestion → List Suggestion
  | [], suggestions => suggestions
  | best :: rest, suggestions =>
    let prompt_text := best.first_prompt
    let analysis := apfp prompt_text
    match analysis.template with
    | none => userPatternLoop apfp lang rest suggestions
    | some tmpl =>
      userPatternLoop apfp lang rest
        (suggestions ++ [mkUserPatternSuggestion apfp prompt_text tmpl lang])

/-- The first loop of `generate_suggestions`: for up to 2 user best
prompts, emit a `user_pattern` suggestion when the analyzer derives a
template. -/
def userPatternSuggestions (apfp : String → PatternAnalysis)
    (user_best : List BestPrompt) (lang : String) : List Suggestion :=
  userPatternLoop apfp lang (user_best.take 2) []

/-- `PromptCoach._suggestion_from_issue(issue_key, lang)`. -/
def _suggestion_from_issue (issue_key : Option String) (lang : String) :
    Option Suggestion :=
  if issue_key = some ("no_file") then
    some { type := "generic"
           title := t ("suggestions.add_file") lang
           template := "[FILE]에서 [TASK]를 처리해줘"
           exampleText := "src/app.py에서 로그인 버그를 수정해줘"
           why_successful := none
           confidence := 0.7 }
  else if issue_key = some ("no_context") then
    some { type := "generic"
           title := t ("suggestions.add_context") lang
           template := "현재 상황: [CONTEXT]\n요청: [TASK]"
           exampleText := "현재 결제 버튼이 동작하지 않아. 원인을 찾아줘"
           why_successful := none
           confidence := 0.6 }
  else if issue_key = some ("no_error") then
    some { type := "generic"
           title := t ("suggestions.add_error") lang
           template := "에러 메시지: [ERROR]\n기대 동작: [EXPECTED]"
           exampleText := "TypeError: ... / 기대 동작: 버튼 클릭 시 결제"
           why_successful := none
           confidence := 0.6 }
  else none

/-- The second loop of `generate_suggestions`: walk the problems in order,
stopping once 3 suggestions have accumulated. -/
def problemSuggestionsLoop (lang : String) : List Problem → List Suggestion →
    List Suggestion
  | [], suggestions => suggestions
  | issue :: rest, suggestions =>
    if suggestions.length ≥ 3 then suggestions
    else match _suggestion_from_issue (some issue.issue) lang with
      | some s => problemSuggestionsLoop lang rest (suggestions ++ [s])
      | none => problemSuggestionsLoop lang rest suggestions

/-- The generic fallback suggestion of `generate_suggestions`. -/
def fallbackSuggestion (prompt : String) (lang : String) : Suggestion :=
  { type := "generic"
    title := t ("suggestions.generic") lang
    template := prompt
    exampleText := prompt
    why_successful := none
    confidence := 0.5 }

/-- `PromptCoach.generate_suggestions(prompt, problems, user_best, lang)`. -/
def generate_suggestions (apfp : String → PatternAnalysis) (prompt : String)
    (problems : List Problem) (user_best : List BestPrompt)
    (lang : String) : List Suggestion :=
  let suggestions := userPatternSuggestions apfp user_best lang
  let suggestions := problemSuggestionsLoop lang problems suggestions
  let suggestions :=
    if suggestions.isEmpty then [fallbackSuggestion prompt lang]
    else suggestions
  suggestions.take 3

/-- `_percent_change(current, expected, lower_is_better)`: `"N/A"` on a zero
baseline, otherwise a signed truncated percentage string. -/
def _percent_change (current : ℚ) (expected : ℚ)
    (lower_is_better : Bool) : String :=
  if current = 0 then "N/A"
  else
    let change := (expected - current) / current
    let change := if lower_is_better then -change else change
    let sign := if change ≥ 0 then "+" else ""
    sign ++ toString (pyTrunc (change * 100)) ++ "%"

/-- One `{current, expected, improvement}` entry of the impact estimate. -/
structure ImpactMetric where
  current : ℚ
  expected : ℚ
  improvement : String
  deriving DecidableEq

/-- The dict returned by `calculate_expected_impact`. -/
structure ExpectedImpact where
  messages : ImpactMetric
  code_generation : ImpactMetric
  success_rate : ImpactMetric
  deriving DecidableEq

/-- `PromptCoach.calculate_expected_impact(current_scores)`, reading the
`structure` and `context` entries of the score dict. -/
def calculate_expected_impact (structureScore : ℚ) (contextScore : ℚ) :
    ExpectedImpact :=
  let target_structure := min 10 (max 7 (structureScore + 3))
  let target_context := min 10 (max 7 (contextScore + 3))
  let improvement_ratio := min 0.7 (max 0.1
    ((target_structure + target_context - structureScore - contextScore) / 20))
  let current_messages : ℚ := 9
  let expected_messages : ℤ :=
    max 3 (pyRoundInt (current_messages * (1 - improvement_ratio)))
  let current_code : ℚ := 2
  let expected_code : ℤ :=
    max 1 (pyRoundInt (current_code * (1 + improvement_ratio * 2)))
  let current_success : ℚ := 0.35
  let expected_success := min 0.95 (current_success + improvement_ratio * 0.6)
  { messages :=
      { current := current_messages
        expected := (expected_messages : ℚ)
        improvement :=
          _percent_change current_messages (expected_messages : ℚ) true }
    code_generation :=
      { current := current_code
        expected := (expected_code : ℚ)
        improvement := _percent_change current_code (expected_code : ℚ) false }
    success_rate :=
      { current := round2 current_success
        expected := round2 expected_success
        improvement := _percent_change current_success expected_success false } }

/-- A user-insight dict of `generate_user_insights`. -/
structure UserInsight where
  type : String
  message : String
  recommendation : String
  deriving DecidableEq

/-- `_ratio(prompts, predicate)`: fraction of records whose `first_prompt`
satisfies the predicate; `0.0` on an empty list. -/
def _ratio (prompts : List BestPrompt) (predicate : String → Bool) : ℚ :=
  if prompts.isEmpty then 0
  else
    let nMatches := prompts.foldl
      (fun acc item => if predicate item.first_prompt then acc + 1 else acc)
      (0 : ℕ)
    (nMatches : ℚ) / (prompts.length : ℚ)

/-- `PromptCoach.generate_user_insights(user_best, lang)`. -/
def generate_user_insights (tfns : TextSignalFns)
    (user_best : List BestPrompt) (lang : String) : List UserInsight :=
  if user_best.isEmpty then []
  else
    let file_ratio := _ratio user_best tfns.has_file_path
    let error_ratio := _ratio user_best tfns.has_error_message
    let insights : List UserInsight := []
    let insights := insights ++
      (if file_ratio ≥ 0.6 then
        [{ type := "strength"
           message := t ("insights.file_strength") lang
           recommendation := t ("insights.keep") lang }]
      else
        [{ type := "weakness"
           message := t ("insights.file_weakness") lang
           recommendation := t ("insights.improve") lang }])
    let insights := insights ++
      (if error_ratio ≥ 0.4 then
        [{ type := "strength"
           message := t ("insights.error_strength") lang
           recommendation := t ("insights.keep") lang }]
      else
        [{ type := "weakness"
           message := t ("insights.error_weakness") lang
           recommendation := t ("insights.improve") lang }])
    insights

/-! ## The broken history lookup (`_get_user_best_prompts`)

`PromptCoach._get_user_best_prompts` calls
`self.analytics.get_best_prompts(limit=5, strict_mode=True)`, but
`PromptAnalytics.get_best_prompts` is declared with parameters
`(self, project_name, limit)`.  Python keyword binding rejects the call with
a `TypeError` (`strict_mode` is not a parameter name); the surrounding
`except Exception` returns `[]`.  The keyword binding is modelled
explicitly. -/

/-- The keyword-bindable parameter names of
`PromptAnalytics.get_best_prompts` (`self` binds positionally). -/
def get_best_prompts_params : List String := ["project_name", "limit"]

/-- The keyword arguments passed by `PromptCoach._get_user_best_prompts`. -/
def get_user_best_prompts_kwargs : List String := ["limit", "strict_mode"]

/-- Python keyword binding succeeds iff every keyword argument names a
declared parameter (none of the parameters here is positional-only and
there is no `**kwargs`); otherwise the call raises `TypeError`. -/
def kwargsAccepted (params : List String) (kwargs : List String) : Bool :=
  kwargs.all params.contains

/-- `PromptAnalytics.get_best_prompts(project_name, limit)`: the ranked
prompt list truncated to `limit`.  The store-backed ranking
(`analyze_prompt_quality`) is abstracted as the input list `all_prompts`. -/
def get_best_prompts (all_prompts : List BestPrompt) (limit : ℕ) :
    List BestPrompt :=
  all_prompts.take limit

/-- `PromptCoach._get_user_best_prompts()`: the keyword call, with
`except Exception: return []` modelled as the failure branch. -/
def _get_user_best_prompts (all_prompts : List BestPrompt) :
    List BestPrompt :=
  if kwargsAccepted get_best_prompts_params get_user_best_prompts_kwargs then
    get_best_prompts all_prompts 5
  else []

/-- The `CoachingResult` dataclass; the `scores` dict is the pair of its
`structure` and `context` entries, and the extension suggestion is
abstracted as an optional opaque record name. -/
structure CoachingResult where
  language : String
  original_prompt : String
  scores_structure : ℚ
  scores_context : ℚ
  problems : List Problem
  suggestions : List Suggestion
  extension_suggestion : Option String
  expected_impact : ExpectedImpact
  user_insights : List UserInsight

/-- `PromptCoach.analyze(prompt, detect_extensions, include_history)`.
The external collaborators (language detector, pattern analyzer, extension
detector result, the analytics store's ranked prompts) are parameters. -/
def analyze (detectLang : String → String)
    (apfp : String → PatternAnalysis)
    (sfns : StructureSignalFns) (cfns : ContextSignalFns)
    (tfns : TextSignalFns)
    (extensionResult : Option String)
    (all_prompts : List BestPrompt)
    (prompt : String)
    (detect_extensions : Bool) (include_history : Bool) : CoachingResult :=
  let lang := detectLang prompt
  let structureScore := calculate_structure_score sfns (some prompt)
  let contextScore := calculate_context_score cfns (some prompt)
  let problems := identify_problems tfns prompt structureScore contextScore lang
  let user_best :=
    if include_history then _get_user_best_prompts all_prompts else []
  let suggestions := generate_suggestions apfp prompt problems user_best lang
  let extension_suggestion :=
    if detect_extensions then extensionResult else none
  let expected_impact := calculate_expected_impact structureScore contextScore
  let user_insights := generate_user_insights tfns user_best lang
  { language := lang
    original_prompt := prompt
    scores_structure := structureScore
    scores_context := contextScore
    problems := problems
    suggestions := suggestions
    extension_suggestion := extension_suggestion
    expected_impact := expected_impact
    user_insights := user_insights }

/-! ## Helper lemmas -/

lemma pyRoundInt_nonneg (x : ℚ) (h : 0 ≤ x) : 0 ≤ pyRoundInt x := by
  have h0 : 0 ≤ ⌊x⌋ := Int.floor_nonneg.mpr h
  unfold pyRoundInt
  split_ifs <;> omega

lemma pyRoundInt_le_intCast (x : ℚ) (n : ℤ) (h : x ≤ n) : pyRoundInt x ≤ n := by
  have hfl : ⌊x⌋ ≤ n := by
    have h2 := Int.floor_le_floor h
    simpa using h2
  unfold pyRoundInt
  split_ifs with h1 h2 h3
  · exact hfl
  all_goals
    have hx : (1:ℚ)/2 ≤ x - ⌊x⌋ := not_lt.mp h1
  all_goals
    have hfx := Int.floor_le x
  all_goals
    have hlt : (⌊x⌋ : ℚ) < (n : ℚ) := by linarith
  all_goals
    have hltz : ⌊x⌋ < n := by exact_mod_cast hlt
  all_goals omega

lemma round2_nonneg (x : ℚ) (h : 0 ≤ x) : 0 ≤ round2 x := by
  unfold round2
  have h1 := pyRoundInt_nonneg (x * 100) (by linarith)
  have h2 : (0:ℚ) ≤ (pyRoundInt (x * 100) : ℚ) := by exact_mod_cast h1
  linarith

lemma round2_le_ten (x : ℚ) (h : x ≤ 10) : round2 x ≤ 10 := by
  unfold round2
  have h1 : pyRoundInt (x * 100) ≤ (1000:ℤ) :=
    pyRoundInt_le_intCast (x * 100) 1000 (by push_cast; linarith)
  have h2 : ((pyRoundInt (x * 100) : ℚ)) ≤ 1000 := by exact_mod_cast h1
  linarith

lemma structure_score_bounds (fns : StructureSignalFns) (prompt : Option String) :
    0 ≤ calculate_structure_score fns prompt ∧
      calculate_structure_score fns prompt ≤ 10 := by
  unfold calculate_structure_score
  split_ifs with h
  · norm_num
  · refine ⟨le_min ?_ (by norm_num), min_le_right _ _⟩
    split_ifs <;> norm_num

lemma context_score_bounds (fns : ContextSignalFns) (prompt : Option String) :
    0 ≤ calculate_context_score fns prompt ∧
      calculate_context_score fns prompt ≤ 10 := by
  unfold calculate_context_score
  split_ifs with h
  · norm_num
  · refine ⟨le_min ?_ (by norm_num), min_le_right _ _⟩
    split_ifs <;> norm_num

lemma efficiency_score_bounds (message_count : ℤ) :
    0 ≤ calculate_efficiency_score message_count ∧
      calculate_efficiency_score message_count ≤ 10 := by
  unfold calculate_efficiency_score
  split_ifs <;> norm_num

lemma diversity_score_bounds (language_diversity : ℤ) :
    0 ≤ calculate_diversity_score language_diversity ∧
      calculate_diversity_score language_diversity ≤ 10 := by
  unfold calculate_diversity_score
  split_ifs <;> norm_num

lemma pyOrInt_zero (x : ℤ) : pyOrInt x 0 = x := by
  unfold pyOrInt
  split_ifs with h
  · omega
  · rfl

lemma productivity_score_le_ten (total_lines max_lines : ℤ) :
    calculate_productivity_score total_lines max_lines ≤ 10 := by
  unfold calculate_productivity_score
  split_ifs with h
  · norm_num
  · exact min_le_right _ _

lemma productivity_score_nonneg (total_lines max_lines : ℤ)
    (h : 0 ≤ total_lines) :
    0 ≤ calculate_productivity_score total_lines max_lines := by
  unfold calculate_productivity_score
  split_ifs with hm
  · exact le_refl 0
  · refine le_min ?_ (by norm_num)
    rw [pyOrInt_zero]
    have hm2 : (0:ℚ) < (max_lines : ℚ) := by exact_mod_cast lt_of_not_le hm
    have ht : (0:ℚ) ≤ (total_lines : ℚ) := by exact_mod_cast h
    positivity

/-- The interval `[0, 10]` in which the spec claims every score lies. -/
def inRange (q : ℚ) : Prop := 0 ≤ q ∧ q ≤ 10

/-- Structure signal functions that never fire (a prompt matching none of
the regex groups). -/
def noStructureSignals : StructureSignalFns :=
  ⟨fun _ => false, fun _ => false, fun _ => false, fun _ => false⟩

/-- Context signal functions that never fire. -/
def noContextSignals : ContextSignalFns :=
  ⟨fun _ => false, fun _ => false, fun _ => false, fun _ => false, fun _ => false⟩

/-! ## Claims -/

/-- C1, counterexample: the claim is false for a negative `total_lines`.
With the empty prompt, `total_lines = -1000` and `max_lines = 1000`, the
returned `productivity_score` is `-10` and the `composite_score` is
`-0.5`, both outside `[0, 10]`. -/
theorem composite_v2_out_of_range_counterexample :
    (calculate_composite_score_v2 noStructureSignals noContextSignals
        (some ("")) 0 (-1000) 0 0 1000).productivity_score = -10 ∧
    (calculate_composite_score_v2 noStructureSignals noContextSignals
        (some ("")) 0 (-1000) 0 0 1000).composite_score = -(1/2) := by
  have he : pyTruthyStr (some ("")) = false := by decide
  have h1 : calculate_structure_score noStructureSignals (some ("")) = 0 := by
    simp [calculate_structure_score, he]
  have h2 : calculate_context_score noContextSignals (some ("")) = 0 := by
    simp [calculate_context_score, he]
  have h3 : calculate_productivity_score (-1000) 1000 = -10 := by
    norm_num [calculate_productivity_score, pyOrInt]
  have h4 : calculate_efficiency_score 0 = 10 := by
    norm_num [calculate_efficiency_score]
  have h5 : calculate_diversity_score 0 = 0 := by
    norm_num [calculate_diversity_score]
  constructor
  · show round2 (calculate_productivity_score (-1000) 1000) = -10
    rw [h3]
    norm_num [round2, pyRoundInt]
  · show round2 (calculate_structure_score noStructureSignals (some ("")) * 0.25 +
      calculate_context_score noContextSignals (some ("")) * 0.25 +
      calculate_productivity_score (-1000) 1000 * 0.20 +
      calculate_efficiency_score 0 * 0.15 +
      calculate_diversity_score 0 * 0.15) = -(1/2)
    rw [h1, h2, h3, h4, h5]
    norm_num [round2, pyRoundInt]

/-- C1 (amended: `total_lines` nonnegative, as it is for real sessions —
the code does not clamp a negative `total_lines`): every sub-score and the
composite score in the mapping returned by `calculate_composite_score_v2`
lies in `[0, 10]`, for every prompt, signal valuation and integer inputs. -/
theorem composite_v2_scores_in_range (sfns : StructureSignalFns)
    (cfns : ContextSignalFns) (prompt : Option String)
    (code_count total_lines message_count language_diversity max_lines : ℤ)
    (h : 0 ≤ total_lines) :
    inRange (calculate_composite_score_v2 sfns cfns prompt code_count
      total_lines message_count language_diversity max_lines).structure_score ∧
    inRange (calculate_composite_score_v2 sfns cfns prompt code_count
      total_lines message_count language_diversity max_lines).context_score ∧
    inRange (calculate_composite_score_v2 sfns cfns prompt code_count
      total_lines message_count language_diversity max_lines).productivity_score ∧
    inRange (calculate_composite_score_v2 sfns cfns prompt code_count
      total_lines message_count language_diversity max_lines).efficiency_score ∧
    inRange (calculate_composite_score_v2 sfns cfns prompt code_count
      total_lines message_count language_diversity max_lines).diversity_score ∧
    inRange (calculate_composite_score_v2 sfns cfns prompt code_count
      total_lines message_count language_diversity max_lines).composite_score := by
  obtain ⟨hs0, hs1⟩ := structure_score_bounds sfns prompt
  obtain ⟨hc0, hc1⟩ := context_score_bounds cfns prompt
  have hp0 := productivity_score_nonneg total_lines max_lines h
  have hp1 := productivity_score_le_ten total_lines max_lines
  obtain ⟨he0, he1⟩ := efficiency_score_bounds message_count
  obtain ⟨hd0, hd1⟩ := diversity_score_bounds language_diversity
  refine ⟨⟨?_, ?_⟩, ⟨?_, ?_⟩, ⟨?_, ?_⟩, ⟨?_, ?_⟩, ⟨?_, ?_⟩, ⟨?_, ?_⟩⟩
  · exact round2_nonneg _ hs0
  · exact round2_le_ten _ hs1
  · exact round2_nonneg _ hc0
  · exact round2_le_ten _ hc1
  · exact round2_nonneg _ hp0
  · exact round2_le_ten _ hp1
  · exact round2_nonneg _ he0
  · exact round2_le_ten _ he1
  · exact round2_nonneg _ hd0
  · exact round2_le_ten _ hd1
  · exact round2_nonneg _ (by linarith)
  · exact round2_le_ten _ (by linarith)

/-- Witness for C1 at a concrete input. -/
theorem composite_v2_scores_in_range_witness :
    inRange (calculate_composite_score_v2 noStructureSignals noContextSignals
      (some ("fix the bug")) 1 50 3 2 1000).structure_score ∧
    inRange (calculate_composite_score_v2 noStructureSignals noContextSignals
      (some ("fix the bug")) 1 50 3 2 1000).context_score ∧
    inRange (calculate_composite_score_v2 noStructureSignals noContextSignals
      (some ("fix the bug")) 1 50 3 2 1000).productivity_score ∧
    inRange (calculate_composite_score_v2 noStructureSignals noContextSignals
      (some ("fix the bug")) 1 50 3 2 1000).efficiency_score ∧
    inRange (calculate_composite_score_v2 noStructureSignals noContextSignals
      (some ("fix the bug")) 1 50 3 2 1000).diversity_score ∧
    inRange (calculate_composite_score_v2 noStructureSignals noContextSignals
      (some ("fix the bug")) 1 50 3 2 1000).composite_score :=
  composite_v2_scores_in_range noStructureSignals noContextSignals
    (some ("fix the bug")) 1 50 3 2 1000 (by decide)

/-- C2: the legacy composite score is batch-relative: for a fixed session
(efficiency 10, clarity 10, productivity i.e. total lines 100, quality 10),
two different batch maxima `max_lines` give different composite scores. -/
theorem legacy_composite_batch_relative :
    ∃ m₁ m₂ : ℤ, m₁ ≠ m₂ ∧
      calculate_legacy_composite 10 10 100 10 m₁ ≠
        calculate_legacy_composite 10 10 100 10 m₂ := by
  have h1 : calculate_legacy_composite 10 10 100 10 100 = 10 := by
    simp [calculate_legacy_composite, pyOrRat, round2, pyRoundInt, max_def]
    norm_num
  have h2 : calculate_legacy_composite 10 10 100 10 200 = 9 := by
    simp [calculate_legacy_composite, pyOrRat, round2, pyRoundInt, max_def]
    norm_num
  refine ⟨100, 200, by decide, ?_⟩
  rw [h1, h2]
  norm_num

/-- C4: structure and context score lie in `[0, 10]` for every prompt and
signal valuation, and both are exactly `0.0` for the empty string and for
an absent (`None`) prompt. -/
theorem structure_context_scores_range_and_empty (sfns : StructureSignalFns)
    (cfns : ContextSignalFns) (prompt : Option String) :
    inRange (calculate_structure_score sfns prompt) ∧
    inRange (calculate_context_score cfns prompt) ∧
    calculate_structure_score sfns none = 0 ∧
    calculate_structure_score sfns (some ("")) = 0 ∧
    calculate_context_score cfns none = 0 ∧
    calculate_context_score cfns (some ("")) = 0 := by
  have he : pyTruthyStr (some ("")) = false := by decide
  refine ⟨structure_score_bounds sfns prompt, context_score_bounds cfns prompt,
    rfl, ?_, rfl, ?_⟩
  · simp [calculate_structure_score, he]
  · simp [calculate_context_score, he]

/-- The efficiency step function exactly as the claim words it:
`≤5→10, ≤10→9, ≤20→8, ≤35→6, ≤50→5, ≤75→4, ≤100→3, else 2`. -/
def efficiencyStepSpec (message_count : ℤ) : ℚ :=
  if message_count ≤ 5 then 10
  else if message_count ≤ 10 then 9
  else if message_count ≤ 20 then 8
  else if message_count ≤ 35 then 6
  else if message_count ≤ 50 then 5
  else if message_count ≤ 75 then 4
  else if message_count ≤ 100 then 3
  else 2

set_option maxHeartbeats 1000000 in
/-- C5: `calculate_efficiency_score` equals the claimed step function, is
monotonically non-increasing, every boundary value falls in the
lower-count bucket, and the quoted values hold. -/
theorem efficiency_score_step_and_monotone :
    (∀ m : ℤ, calculate_efficiency_score m = efficiencyStepSpec m) ∧
    (∀ m n : ℤ, m ≤ n →
      calculate_efficiency_score n ≤ calculate_efficiency_score m) ∧
    calculate_efficiency_score 5 = 10 ∧
    calculate_efficiency_score 10 = 9 ∧
    calculate_efficiency_score 20 = 8 ∧
    calculate_efficiency_score 35 = 6 ∧
    calculate_efficiency_score 50 = 5 ∧
    calculate_efficiency_score 75 = 4 ∧
    calculate_efficiency_score 100 = 3 ∧
    calculate_efficiency_score 150 = 2 := by
  refine ⟨fun m => rfl, ?_, ?_, ?_, ?_, ?_, ?_, ?_, ?_, ?_⟩
  · intro m n hmn
    unfold calculate_efficiency_score
    split_ifs <;> first | (exfalso; omega) | norm_num
  all_goals norm_num [calculate_efficiency_score]

/-- Witness for C5's monotonicity at a concrete pair. -/
theorem efficiency_score_monotone_witness :
    calculate_efficiency_score 40 ≤ calculate_efficiency_score 12 :=
  efficiency_score_step_and_monotone.2.1 12 40 (by decide)

/-- C6: `calculate_productivity_score` is
`min(10, total_lines / max_lines * 10)` for a positive ceiling and `0.0`
for a zero or negative ceiling, with the quoted concrete values. -/
theorem productivity_score_formula :
    (∀ t m : ℤ, calculate_productivity_score t m =
      if 0 < m then min 10 ((t : ℚ) / (m : ℚ) * 10) else 0) ∧
    calculate_productivity_score 1000 1000 = 10 ∧
    calculate_productivity_score 2000 1000 = 10 ∧
    calculate_productivity_score 0 1000 = 0 := by
  refine ⟨?_, ?_, ?_, ?_⟩
  · intro t m
    unfold calculate_productivity_score
    rcases le_or_lt m 0 with hm | hm
    · rw [if_pos hm, if_neg (not_lt.mpr hm)]
    · rw [if_neg (not_le.mpr hm), if_pos hm, pyOrInt_zero, min_comm]
  all_goals norm_num [calculate_productivity_score, pyOrInt]

/-- C7: every entry of the mapping returned by
`calculate_composite_score_v2` is the corresponding sub-score rounded to
2 decimals, the composite is the weighted sum with weights
0.25/0.25/0.20/0.15/0.15 rounded to 2 decimals, and the weights sum
to 1. -/
theorem composite_v2_weighted_formula (sfns : StructureSignalFns)
    (cfns : ContextSignalFns) (prompt : Option String)
    (code_count total_lines message_count language_diversity max_lines : ℤ) :
    (calculate_composite_score_v2 sfns cfns prompt code_count total_lines
      message_count language_diversity max_lines).structure_score =
        round2 (calculate_structure_score sfns prompt) ∧
    (calculate_composite_score_v2 sfns cfns prompt code_count total_lines
      message_count language_diversity max_lines).context_score =
        round2 (calculate_context_score cfns prompt) ∧
    (calculate_composite_score_v2 sfns cfns prompt code_count total_lines
      message_count language_diversity max_lines).productivity_score =
        round2 (calculate_productivity_score total_lines max_lines) ∧
    (calculate_composite_score_v2 sfns cfns prompt code_count total_lines
      message_count language_diversity max_lines).efficiency_score =
        round2 (calculate_efficiency_score message_count) ∧
    (calculate_composite_score_v2 sfns cfns prompt code_count total_lines
      message_count language_diversity max_lines).diversity_score =
        round2 (calculate_diversity_score language_diversity) ∧
    (calculate_composite_score_v2 sfns cfns prompt code_count total_lines
      message_count language_diversity max_lines).composite_score =
        round2 (calculate_structure_score sfns prompt * 0.25 +
          calculate_context_score cfns prompt * 0.25 +
          calculate_productivity_score total_lines max_lines * 0.20 +
          calculate_efficiency_score message_count * 0.15 +
          calculate_diversity_score language_diversity * 0.15) ∧
    (0.25 + 0.25 + 0.20 + 0.15 + 0.15 : ℚ) = 1 :=
  ⟨rfl, rfl, rfl, rfl, rfl, rfl, by norm_num⟩

/-- C8: `identify_problems` evaluates its five checks independently and
reports every matching problem in the fixed order `no_target`,
`no_context`, `conversational`, `no_file`, `no_error`; low structure and
low context yield severity-`high` problems. -/
theorem identify_problems_order_and_severity (tfns : TextSignalFns)
    (prompt : String) (structureScore contextScore : ℚ) (lang : String) :
    identify_problems tfns prompt structureScore contextScore lang =
      (if structureScore < 2 then [_problem ("no_target") ("high") lang]
        else []) ++
      (if contextScore < 2 then [_problem ("no_context") ("high") lang]
        else []) ++
      (if tfns.is_conversational prompt then
        [_problem ("conversational") ("medium") lang] else []) ++
      (if !tfns.has_file_path prompt then
        [_problem ("no_file") ("medium") lang] else []) ++
      (if tfns.has_error_keywords prompt && !tfns.has_error_message prompt
        then [_problem ("no_error") ("medium") lang] else []) ∧
    (_problem ("no_target") ("high") lang).severity = "high" ∧
    (_problem ("no_context") ("high") lang).severity = "high" := by
  refine ⟨?_, rfl, rfl⟩
  unfold identify_problems
  split_ifs <;> simp

/-- Every suggestion `_suggestion_from_issue` produces has type
`generic`. -/
lemma suggestion_from_issue_generic (k : Option String) (lang : String)
    (s : Suggestion) (h : _suggestion_from_issue k lang = some s) :
    s.type = "generic" := by
  unfold _suggestion_from_issue at h
  split_ifs at h <;>
    first
    | exact Option.noConfusion h
    | (injection h with h2; rw [← h2])

/-- If no best prompt yields a template, the user-pattern loop leaves the
accumulator unchanged. -/
lemma userPatternLoop_all_none (apfp : String → PatternAnalysis)
    (lang : String) (l : List BestPrompt) :
    ∀ acc : List Suggestion,
      (∀ b ∈ l, (apfp b.first_prompt).template = none) →
      userPatternLoop apfp lang l acc = acc := by
  induction l with
  | nil => intro acc _; rfl
  | cons b rest ih =>
    intro acc h
    have hb := h b (List.mem_cons_self b rest)
    unfold userPatternLoop
    simp only [hb]
    exact ih acc (fun x hx => h x (List.mem_cons_of_mem _ hx))

/-- If no problem yields a templated suggestion, the problem loop leaves
the accumulator unchanged. -/
lemma problemSuggestionsLoop_all_none (lang : String) :
    ∀ (problems : List Problem) (acc : List Suggestion),
      (∀ p ∈ problems, _suggestion_from_issue (some p.issue) lang = none) →
      problemSuggestionsLoop lang problems acc = acc := by
  intro problems
  induction problems with
  | nil => intro acc _; rfl
  | cons p rest ih =>
    intro acc h
    have hp := h p (List.mem_cons_self p rest)
    unfold problemSuggestionsLoop
    split_ifs with hlen
    · rfl
    · simp only [hp]
      exact ih acc (fun x hx => h x (List.mem_cons_of_mem _ hx))

/-- A boolean predicate holding on a list still holds on a prefix. -/
lemma all_take_of_all {α : Type} (P : α → Bool) (n : ℕ) (l : List α)
    (h : l.all P = true) : (l.take n).all P = true := by
  rw [List.all_eq_true] at h ⊢
  exact fun x hx => h x (List.take_subset n l hx)

/-- The problem loop preserves a predicate satisfied by everything
`_suggestion_from_issue` can produce. -/
lemma problemSuggestionsLoop_all_pred (lang : String) (P : Suggestion → Bool)
    (hP : ∀ (k : Option String) (s : Suggestion),
      _suggestion_from_issue k lang = some s → P s = true) :
    ∀ (problems : List Problem) (acc : List Suggestion),
      acc.all P = true →
      (problemSuggestionsLoop lang problems acc).all P = true := by
  intro problems
  induction problems with
  | nil => intro acc h; exact h
  | cons p rest ih =>
    intro acc h
    unfold problemSuggestionsLoop
    split_ifs with hlen
    · exact h
    · rcases hsfi : _suggestion_from_issue (some p.issue) lang with _ | s
      · simp only [hsfi]
        exact ih acc h
      · simp only [hsfi]
        refine ih _ ?_
        rw [List.all_append, h, Bool.true_and]
        simp [hP _ _ hsfi]

/-- C9: `generate_suggestions` returns at most 3 suggestions; when neither
a user-pattern nor a problem-driven suggestion is produced, it returns
exactly the one generic fallback echoing the original prompt with
confidence 0.5. -/
theorem generate_suggestions_cap_and_fallback
    (apfp : String → PatternAnalysis) (prompt : String)
    (problems : List Problem) (user_best : List BestPrompt)
    (lang : String) :
    (generate_suggestions apfp prompt problems user_best lang).length ≤ 3 ∧
    ((∀ b ∈ user_best.take 2, (apfp b.first_prompt).template = none) →
      (∀ p ∈ problems, _suggestion_from_issue (some p.issue) lang = none) →
      generate_suggestions apfp prompt problems user_best lang =
        [fallbackSuggestion prompt lang]) := by
  constructor
  · exact List.length_take_le 3 _
  · intro h1 h2
    unfold generate_suggestions userPatternSuggestions
    rw [userPatternLoop_all_none apfp lang _ [] h1]
    dsimp only
    rw [problemSuggestionsLoop_all_none lang problems [] h2]
    rfl

/-- A pattern analyzer deriving no template, used as a witness input. -/
def emptyAnalyzer : String → PatternAnalysis := fun _ => ⟨none, none, none⟩

/-- Witness for C9 at a concrete input. -/
theorem generate_suggestions_cap_and_fallback_witness :
    (generate_suggestions emptyAnalyzer ("hi") [] [] ("en")).length ≤ 3 ∧
    generate_suggestions emptyAnalyzer ("hi") [] [] ("en") =
      [fallbackSuggestion ("hi") ("en")] :=
  ⟨(generate_suggestions_cap_and_fallback emptyAnalyzer ("hi") [] []
      ("en")).1,
    (generate_suggestions_cap_and_fallback emptyAnalyzer ("hi") [] []
      ("en")).2 (by simp) (by simp)⟩

/-- C10: the three ratio computations guard their zero denominators:
legacy efficiency and legacy clarity return `0.0` on a zero denominator
(otherwise the rounded ratio), and the percentage-change string is
`"N/A"` on a zero baseline. -/
theorem division_by_zero_guards :
    (∀ c n : ℤ, calculate_legacy_efficiency c n =
      if n = 0 then 0 else round2 ((c : ℚ) / (n : ℚ))) ∧
    (∀ m : ℤ, calculate_legacy_clarity m =
      if m = 0 then 0 else round2 (100 / (m : ℚ))) ∧
    (∀ (expected : ℚ) (lower_is_better : Bool),
      _percent_change 0 expected lower_is_better = "N/A") :=
  ⟨fun _ _ => rfl, fun _ => rfl, fun _ _ => rfl⟩

/-- With an empty history, `generate_suggestions` emits no `user_pattern`
suggestion. -/
lemma generate_suggestions_no_user_pattern
    (apfp : String → PatternAnalysis) (prompt : String)
    (problems : List Problem) (lang : String) :
    ((generate_suggestions apfp prompt problems [] lang).all
      (fun s => s.type != "user_pattern")) = true := by
  unfold generate_suggestions userPatternSuggestions
  have hP : ∀ (k : Option String) (s : Suggestion),
      _suggestion_from_issue k lang = some s →
      (s.type != "user_pattern") = true := by
    intro k s hk
    rw [suggestion_from_issue_generic k lang s hk]
    rfl
  have hL := problemSuggestionsLoop_all_pred lang
    (fun s => s.type != "user_pattern") hP problems
    (userPatternLoop apfp lang (List.take 2 []) []) (by rfl)
  apply all_take_of_all
  split_ifs with hempty
  · rfl
  · exact hL

/-- C3: the history lookup of the coach always fails: the keyword call
`get_best_prompts(limit=5, strict_mode=True)` does not bind against the
parameters `(project_name, limit)`, the raised `TypeError` is swallowed,
and `_get_user_best_prompts` returns `[]`; consequently `analyze` with
`include_history=True` never emits a `user_pattern` suggestion and always
returns an empty `user_insights` list. -/
theorem coach_history_lookup_always_empty :
    (∀ all_prompts : List BestPrompt,
      _get_user_best_prompts all_prompts = []) ∧
    (∀ (detectLang : String → String) (apfp : String → PatternAnalysis)
      (sfns : StructureSignalFns) (cfns : ContextSignalFns)
      (tfns : TextSignalFns) (extensionResult : Option String)
      (all_prompts : List BestPrompt) (prompt : String)
      (detect_extensions : Bool),
      ((analyze detectLang apfp sfns cfns tfns extensionResult all_prompts
          prompt detect_extensions true).suggestions.all
        (fun s => s.type != "user_pattern")) = true ∧
      (analyze detectLang apfp sfns cfns tfns extensionResult all_prompts
          prompt detect_extensions true).user_insights = []) := by
  have hbroken : ∀ all_prompts : List BestPrompt,
      _get_user_best_prompts all_prompts = [] := by
    intro l
    unfold _get_user_best_prompts
    have hk : kwargsAccepted get_best_prompts_params
        get_user_best_prompts_kwargs = false := by decide
    rw [hk]
    rfl
  refine ⟨hbroken, ?_⟩
  intro detectLang apfp sfns cfns tfns extensionResult all_prompts prompt
    detect_extensions
  constructor
  · show ((generate_suggestions apfp prompt _
        (if true then _get_user_best_prompts all_prompts else [])
        (detectLang prompt)).all (fun s => s.type != "user_pattern")) = true
    rw [if_pos (Eq.refl true), hbroken all_prompts]
    exact generate_suggestions_no_user_pattern apfp prompt _ (detectLang prompt)
  · show generate_user_insights tfns
        (if true then _get_user_best_prompts all_prompts else [])
        (detectLang prompt) = []
    rw [if_pos (Eq.refl true), hbroken all_prompts]
    rfl

end ClaudeX
